import Mathlib

/-!
# ESP32 sensor node: signal-analysis pipeline

A shallow embedding of the analysis core of
`firmware/esp32-sensor-node/src/main.cpp`: the Holt forecaster, the
error-variance anomaly detector, the delta detector, the air-quality score
and the adaptive sampling controller, together with the part of `loop()`
that wires them together.

Modelling conventions.

* A C++ `float` is a value of `Flt`: either `nan` or a finite number carried
  as an exact rational.  Arithmetic on finite values is exact (rounding to
  binary32, overflow to infinity and underflow are outside the model), every
  arithmetic operation with a `nan` operand yields `nan`, and every ordered
  comparison with a `nan` operand is false, as in IEEE 754.
* `int` counters are unbounded integers (`Int`); `uint16_t` sensor words are
  natural numbers (the sensor delivers values below 65536); `uint32_t`
  `frameCounter` wraps modulo `2 ^ 32`.
* Global mutable variables of the sketch are the fields of `State`; one call
  of `loop()` is the function `loop : State → Reading → State × Report`.
  The serial log, the LEDs, the radio and the final `delay` are not modelled.
-/

namespace IoT

/-! ## Configuration constants (`main.cpp` lines 17-39) -/

def SAMPLE_PERIOD_MS : Nat := 10000
def SAMPLE_PERIOD_ALERT_MS : Nat := 2000
def ALERT_HOLD_CYCLES : Int := 30

def ECO2_DELTA_PPM : Int := 30
def TVOC_DELTA_PPB : Int := 15

/-! ## Floats -/

/-- A `float`: not-a-number, or a finite value. -/
inductive Flt where
  | nan : Flt
  | fin (q : ℚ) : Flt
deriving DecidableEq

namespace Flt

def add : Flt → Flt → Flt
  | fin a, fin b => fin (a + b)
  | _, _ => nan

def sub : Flt → Flt → Flt
  | fin a, fin b => fin (a - b)
  | _, _ => nan

def mul : Flt → Flt → Flt
  | fin a, fin b => fin (a * b)
  | _, _ => nan

/-- Division; the sketch only ever divides by non-zero constants. -/
def div : Flt → Flt → Flt
  | fin a, fin b => fin (a / b)
  | _, _ => nan

instance : Add Flt := ⟨add⟩
instance : Sub Flt := ⟨sub⟩
instance : Mul Flt := ⟨mul⟩
instance : Div Flt := ⟨div⟩

/-- The test `isnan(x)`. -/
def isnan : Flt → Bool
  | nan => true
  | fin _ => false

/-- The comparison `a < b` (false when an operand is `nan`). -/
def lt : Flt → Flt → Bool
  | fin a, fin b => decide (a < b)
  | _, _ => false

/-- The comparison `a > b`. -/
def gt (a b : Flt) : Bool := lt b a

/-- The comparison `a >= b` (false when an operand is `nan`). -/
def ge : Flt → Flt → Bool
  | fin a, fin b => decide (b ≤ a)
  | _, _ => false

/-- The function `fabs`. -/
def fabs : Flt → Flt
  | fin a => fin |a|
  | nan => nan

/-- The conversion `(float)k` of an `int`. -/
def ofInt (k : Int) : Flt := fin k

/-- The conversion `(float)n` of an unsigned sensor word. -/
def ofNat (n : Nat) : Flt := fin n

/-- Membership of a float in the closed interval `[lo, hi]`; `nan` is in no interval. -/
def inClosed (x lo hi : Flt) : Bool := ge x lo && ge hi x

end Flt

/-- The conversion `(int)x` of a finite float: truncation toward zero. -/
def truncToInt (q : ℚ) : Int := if 0 ≤ q then ⌊q⌋ else ⌈q⌉

/-- Threshold `TEMP_DELTA_C`. -/
def TEMP_DELTA_C : Flt := Flt.fin (1 / 2)
/-- Threshold `HUM_DELTA_RH`. -/
def HUM_DELTA_RH : Flt := Flt.fin 2
/-- Threshold `PRESS_DELTA_HPA`. -/
def PRESS_DELTA_HPA : Flt := Flt.fin 1

/-! ## `struct HoltForecast` (lines 136-179) -/

structure HoltForecast where
  level : Flt := Flt.nan
  trend : Flt := Flt.fin 0
  init : Bool := false
  updateCount : Int := 0
  alpha : Flt := Flt.fin (1 / 2)
  beta : Flt := Flt.fin (1 / 5)
deriving DecidableEq

namespace HoltForecast

def update (m : HoltForecast) (x : Flt) : HoltForecast :=
  if !m.init then
    { m with level := x, trend := Flt.fin 0, init := true, updateCount := 1 }
  else
    let prevLevel := m.level
    let level := m.alpha * x + (Flt.fin 1 - m.alpha) * (m.level + m.trend)
    let trend := m.beta * (level - prevLevel) + (Flt.fin 1 - m.beta) * m.trend
    { m with level := level, trend := trend, updateCount := m.updateCount + 1 }

def predict (m : HoltForecast) (k : Int) : Flt :=
  if !m.init then Flt.nan
  else m.level + Flt.ofInt k * m.trend

def predictClamped (m : HoltForecast) (k : Int) (minVal maxVal : Flt) : Flt :=
  let pred := m.predict k
  if pred.isnan then Flt.nan
  else if Flt.lt pred minVal then minVal
  else if Flt.gt pred maxVal then maxVal
  else pred

def isStable (m : HoltForecast) : Bool :=
  m.init && decide (m.updateCount ≥ 5)

end HoltForecast

/-! ## `struct AnomalyDetector` (lines 181-216) -/

structure AnomalyDetector where
  emaErr2 : Flt := Flt.fin 0
  init : Bool := false
  updateCount : Int := 0
  gamma : Flt := Flt.fin (3 / 20)
  mult : Flt := Flt.fin 4
deriving DecidableEq

namespace AnomalyDetector

/-- The literal `1e-6f` that floors the baseline. -/
def epsilon : Flt := Flt.fin (1 / 1000000)

/-- The method `bool update(float error)`: the new detector and the returned flag. -/
def update (d : AnomalyDetector) (error : Flt) : AnomalyDetector × Bool :=
  let e2 := error * error
  if !d.init then
    ({ d with emaErr2 := e2, init := true, updateCount := 1 }, false)
  else
    let emaErr2 := d.gamma * e2 + (Flt.fin 1 - d.gamma) * d.emaErr2
    let updateCount := d.updateCount + 1
    let d1 : AnomalyDetector := { d with emaErr2 := emaErr2, updateCount := updateCount }
    if updateCount < 3 then (d1, false)
    else
      let baseline := if Flt.lt emaErr2 epsilon then epsilon else emaErr2
      (d1, Flt.gt e2 (d.mult * baseline))

def reset (d : AnomalyDetector) : AnomalyDetector :=
  { d with emaErr2 := Flt.fin 0, init := false, updateCount := 0 }

end AnomalyDetector

/-- The helper `oneStepErr` (lines 221-225). -/
def oneStepErr (m : HoltForecast) (current : Flt) : Flt :=
  let p1 := m.predict 1
  if p1.isnan then Flt.fin 0
  else current - p1

/-! ## Air-quality score (lines 229-254) -/

def clampInt (v lo hi : Int) : Int :=
  if v < lo then lo
  else if v > hi then hi
  else v

def airScore (eco2ppm tvocppb : Nat) : Int :=
  let sEco2 : Int :=
    if eco2ppm ≤ 450 then 100
    else if eco2ppm ≥ 2000 then 0
    else
      let t : ℚ := ((eco2ppm : ℚ) - 450) / (2000 - 450)
      truncToInt (100 * (1 - t))
  let sTvoc : Int :=
    if tvocppb ≤ 100 then 100
    else if tvocppb ≥ 1000 then 0
    else
      let t : ℚ := ((tvocppb : ℚ) - 100) / (1000 - 100)
      truncToInt (100 * (1 - t))
  let score : Int := truncToInt ((3 / 5 : ℚ) * sEco2 + (2 / 5 : ℚ) * sTvoc)
  clampInt score 0 100

/-! ### The documented score formula

The three definitions below follow the wording of the specification, not the
code; they are what `airScore` is compared with. -/

/-- The variables `currentSampleMs` and `alertHold`. -/
structure Sampling where
  currentSampleMs : Nat := SAMPLE_PERIOD_MS
  alertHold : Int := 0
deriving DecidableEq

/-- The block "ADAPTIVE SAMPLING" of `loop()`, given the value of
`deltaAlert || anEco2 || anTvoc`. -/
def samplingStep (s : Sampling) (alert : Bool) : Sampling :=
  if alert then
    { alertHold := ALERT_HOLD_CYCLES, currentSampleMs := SAMPLE_PERIOD_ALERT_MS }
  else if s.alertHold > 0 then
    { alertHold := s.alertHold - 1, currentSampleMs := SAMPLE_PERIOD_ALERT_MS }
  else
    { alertHold := s.alertHold, currentSampleMs := SAMPLE_PERIOD_MS }

/-- The sampling state after a sequence of cycles with the given alert flags. -/
def samplingRun (s : Sampling) (flags : List Bool) : Sampling :=
  flags.foldl samplingStep s

/-- The interval chosen in cycle `i` (counted from 0) of a run from the start-up state. -/
def intervalAt (flags : List Bool) (i : Nat) : Nat :=
  (samplingRun {} (flags.take (i + 1))).currentSampleMs

/-! ## One cycle of `loop()` (lines 409-538) -/

/-- What the two sensors deliver in one cycle: `bme` is `none` when
`bme.performReading()` fails and otherwise holds temperature, humidity and
pressure in Pa; `sgp` is `none` when `sgp.IAQmeasure()` fails and otherwise
holds `sgp.eCO2` and `sgp.TVOC`. -/
structure Reading where
  bme : Option (Flt × Flt × Flt) := none
  sgp : Option (Nat × Nat) := none

/-- The file-scope variables of the sketch. -/
structure State where
  frameCounter : Nat := 0
  buzzerLatched : Bool := false
  prevEco2 : Int := -1
  prevTvoc : Int := -1
  prevTemp : Flt := Flt.nan
  prevHum : Flt := Flt.nan
  prevPres : Flt := Flt.nan
  holtEco2 : HoltForecast := {}
  holtTvoc : HoltForecast := {}
  anomEco2 : AnomalyDetector := {}
  anomTvoc : AnomalyDetector := {}
  sampling : Sampling := {}

/-- The values a cycle hands to `printReadings` and `buildPayloadJsonShort`,
and the argument of each `AnomalyDetector::update` call made in the cycle
(`none` when the call is not made). -/
structure Report where
  t : Flt
  h : Flt
  bp : Flt
  eco2 : Nat
  tvoc : Nat
  score : Int
  predEco2_60m : Flt
  predTvoc_60m : Flt
  anEco2 : Bool
  anTvoc : Bool
  deltaAlert : Bool
  statusHigh : Bool
  sampleMs : Nat
  fc : Nat
  errEco2 : Option Flt
  errTvoc : Option Flt

/-- The block "DELTA-BASED CHANGE DETECTION" of `loop()` (lines 434-466). -/
def deltaDetect (s : State) (t h bp : Flt) (eco2 tvoc : Nat) : Bool :=
  let d0 := false
  let d1 := if s.prevEco2 ≥ 0 ∧ |(eco2 : Int) - s.prevEco2| ≥ ECO2_DELTA_PPM then true else d0
  let d2 := if s.prevTvoc ≥ 0 ∧ |(tvoc : Int) - s.prevTvoc| ≥ TVOC_DELTA_PPB then true else d1
  let d3 :=
    if (!s.prevTemp.isnan && !t.isnan) && Flt.ge (Flt.fabs (t - s.prevTemp)) TEMP_DELTA_C
    then true else d2
  let d4 :=
    if (!s.prevHum.isnan && !h.isnan) && Flt.ge (Flt.fabs (h - s.prevHum)) HUM_DELTA_RH
    then true else d3
  let d5 :=
    if (!s.prevPres.isnan && !bp.isnan) && Flt.ge (Flt.fabs (bp - s.prevPres)) PRESS_DELTA_HPA
    then true else d4
  d5

def loop (s : State) (r : Reading) : State × Report :=
  let frameCounter := (s.frameCounter + 1) % 2 ^ 32
  -- BME680
  let t : Flt := match r.bme with | some x => x.1 | none => Flt.nan
  let h : Flt := match r.bme with | some x => x.2.1 | none => Flt.nan
  let bp : Flt := match r.bme with | some x => x.2.2 / Flt.fin 100 | none => Flt.nan
  -- SGP30
  let eco2 : Nat := match r.sgp with | some x => x.1 | none => 0
  let tvoc : Nat := match r.sgp with | some x => x.2 | none => 0
  -- delta detection, then the current values are stored
  let deltaAlert := deltaDetect s t h bp eco2 tvoc
  -- forecasters
  let holtEco2 := s.holtEco2.update (Flt.ofNat eco2)
  let holtTvoc := s.holtTvoc.update (Flt.ofNat tvoc)
  let k60 : Int := 360
  let predEco2_60m := holtEco2.predictClamped k60 (Flt.fin 300) (Flt.fin 1600)
  let predTvoc_60m := holtTvoc.predictClamped k60 (Flt.fin 0) (Flt.fin 1000)
  -- anomaly detectors
  let errEco2 : Option Flt :=
    if holtEco2.isStable then some (oneStepErr holtEco2 (Flt.ofNat eco2)) else none
  let errTvoc : Option Flt :=
    if holtTvoc.isStable then some (oneStepErr holtTvoc (Flt.ofNat tvoc)) else none
  let aE : AnomalyDetector × Bool :=
    match errEco2 with | some e => s.anomEco2.update e | none => (s.anomEco2, false)
  let aT : AnomalyDetector × Bool :=
    match errTvoc with | some e => s.anomTvoc.update e | none => (s.anomTvoc, false)
  let anEco2 := aE.2
  let anTvoc := aT.2
  let alert := deltaAlert || anEco2 || anTvoc
  let score := airScore eco2 tvoc
  let sampling := samplingStep s.sampling alert
  ({ frameCounter := frameCounter
     buzzerLatched := alert
     prevEco2 := eco2
     prevTvoc := tvoc
     prevTemp := t
     prevHum := h
     prevPres := bp
     holtEco2 := holtEco2
     holtTvoc := holtTvoc
     anomEco2 := aE.1
     anomTvoc := aT.1
     sampling := sampling },
   { t := t, h := h, bp := bp, eco2 := eco2, tvoc := tvoc, score := score
     predEco2_60m := predEco2_60m, predTvoc_60m := predTvoc_60m
     anEco2 := anEco2, anTvoc := anTvoc, deltaAlert := deltaAlert
     statusHigh := alert, sampleMs := sampling.currentSampleMs, fc := frameCounter
     errEco2 := errEco2, errTvoc := errTvoc })

/-! ### The documented delta detector

The definitions below follow the wording of the specification, not the code:
every channel of a cycle is a value or absent, a failed sensor reading makes
its channels absent, and a comparison with an absent value is skipped. -/

/-- The eco2 channel of a cycle as the specification sees it. -/
def Reading.eco2Spec (r : Reading) : Option ℚ := r.sgp.map (fun x => (x.1 : ℚ))

/-- The tvoc channel of a cycle as the specification sees it. -/
def Reading.tvocSpec (r : Reading) : Option ℚ := r.sgp.map (fun x => (x.2 : ℚ))

/-- A float channel as the specification sees it: `nan` is absent. -/
def Flt.toSpec : Flt → Option ℚ
  | Flt.fin q => some q
  | Flt.nan => none

/-- The temperature channel of a cycle as the specification sees it. -/
def Reading.tempSpec (r : Reading) : Option ℚ := r.bme.bind (fun x => x.1.toSpec)

/-- The humidity channel of a cycle as the specification sees it. -/
def Reading.humSpec (r : Reading) : Option ℚ := r.bme.bind (fun x => x.2.1.toSpec)

/-- The pressure channel (hPa) of a cycle as the specification sees it. -/
def Reading.presSpec (r : Reading) : Option ℚ :=
  r.bme.bind (fun x => (x.2.2 / Flt.fin 100).toSpec)

/-- One channel of the documented delta detector: both values present and
`abs(current - previous) ≥ threshold`. -/
def chanDeltaSpec (prev cur : Option ℚ) (threshold : ℚ) : Bool :=
  match prev, cur with
  | some p, some c => decide (|c - p| ≥ threshold)
  | _, _ => false

/-- The documented delta detector on the previous cycle (absent in the first
cycle) and the current one, with the thresholds 30, 15, 0.5, 2 and 1. -/
def deltaSpec (prev : Option Reading) (cur : Reading) : Bool :=
  chanDeltaSpec (prev.bind Reading.eco2Spec) cur.eco2Spec 30 ||
  chanDeltaSpec (prev.bind Reading.tvocSpec) cur.tvocSpec 15 ||
  chanDeltaSpec (prev.bind Reading.tempSpec) cur.tempSpec (1 / 2) ||
  chanDeltaSpec (prev.bind Reading.humSpec) cur.humSpec 2 ||
  chanDeltaSpec (prev.bind Reading.presSpec) cur.presSpec 1

/-- The state after running `loop()` once per reading, from state `s`. -/
def runState (s : State) (rs : List Reading) : State :=
  rs.foldl (fun st r => (loop st r).1) s

/-- The report of cycle `n + 1` of a run from the start-up state, when the run has that cycle. -/
def reportAt (rs : List Reading) (n : Nat) : Option Report :=
  match rs[n]? with
  | some r => some (loop (runState {} (rs.take n)) r).2
  | none => none

/-- Counters of the forecasters and detectors after `n` cycles: each forecaster has
been updated `n` times, each detector `n - 4` times (not at all in the first
four cycles). -/
def WarmInv (n : Nat) (s : State) : Prop :=
  (s.holtEco2.init = decide (0 < n) ∧ s.holtEco2.updateCount = (n : Int)) ∧
  (s.holtTvoc.init = decide (0 < n) ∧ s.holtTvoc.updateCount = (n : Int)) ∧
  (s.anomEco2.init = decide (4 < n) ∧ s.anomEco2.updateCount = ((n - 4 : Nat) : Int)) ∧
  (s.anomTvoc.init = decide (4 < n) ∧ s.anomTvoc.updateCount = ((n - 4 : Nat) : Int))

/-! ## Basic facts about floats -/

namespace Flt
@[simp] theorem fin_add (a b : ℚ) : fin a + fin b = fin (a + b) := rfl
@[simp] theorem fin_sub (a b : ℚ) : fin a - fin b = fin (a - b) := rfl
@[simp] theorem fin_mul (a b : ℚ) : fin a * fin b = fin (a * b) := rfl
@[simp] theorem fin_div (a b : ℚ) : fin a / fin b = fin (a / b) := rfl
@[simp] theorem lt_fin (a b : ℚ) : lt (fin a) (fin b) = decide (a < b) := rfl
@[simp] theorem gt_fin (a b : ℚ) : gt (fin a) (fin b) = decide (b < a) := rfl
@[simp] theorem ge_fin (a b : ℚ) : ge (fin a) (fin b) = decide (b ≤ a) := rfl
@[simp] theorem isnan_fin (a : ℚ) : isnan (fin a) = false := rfl
@[simp] theorem isnan_nan : isnan nan = true := rfl
@[simp] theorem fabs_fin (a : ℚ) : fabs (fin a) = fin |a| := rfl
@[simp] theorem ofInt_eq (k : Int) : ofInt k = fin k := rfl
@[simp] theorem ofNat_eq (n : Nat) : ofNat n = fin n := rfl
theorem isnan_eq_false {x : Flt} (h : x.isnan = false) : ∃ q, x = fin q := by
  cases x with
  | nan => simp at h
  | fin q => exact ⟨q, rfl⟩
end Flt

/-! ## Sampling controller -/

theorem samplingRun_snoc (s : Sampling) (l : List Bool) (b : Bool) :
    samplingRun s (l ++ [b]) = samplingStep (samplingRun s l) b := by
  simp [samplingRun, List.foldl_append]

/-- Hold counter after a run: `m < alertHold` exactly when some alert lies close enough. -/
theorem alertHold_spec (l : List Bool) (m : Nat) :
    ((m : Int) < (samplingRun {} l).alertHold ↔
      ∃ j, j < l.length ∧ l[j]? = some true ∧ (l.length - 1 - j) + m < 30) := by
  induction l using List.reverseRecOn generalizing m with
  | nil => simp [samplingRun]
  | append_singleton l b ih =>
    rw [samplingRun_snoc]
    cases b with
    | true =>
      simp only [samplingStep, if_true, ALERT_HOLD_CYCLES]
      constructor
      · intro h
        refine ⟨l.length, by simp, by simp, ?_⟩
        simp
        omega
      · rintro ⟨j, hj, -, hlt⟩
        simp at hj hlt
        omega
    | false =>
      have ih1 := ih (m + 1)
      have ih0 := ih 0
      simp only [samplingStep, Bool.false_eq_true, if_false]
      split_ifs with hpos
      · simp only
        constructor
        · intro h
          have h' : ((m + 1 : Nat) : Int) < (samplingRun {} l).alertHold := by push_cast; omega
          obtain ⟨j, hj, hget, hlt⟩ := ih1.1 h'
          refine ⟨j, by simp; omega, ?_, ?_⟩
          · rw [List.getElem?_append_left hj]; exact hget
          · simp; omega
        · rintro ⟨j, hj, hget, hlt⟩
          simp at hj hlt
          have hjl : j < l.length := by
            rcases Nat.lt_or_ge j l.length with h | h
            · exact h
            · have : j = l.length := by omega
              subst this
              simp at hget
          rw [List.getElem?_append_left hjl] at hget
          have := ih1.2 ⟨j, hjl, hget, by omega⟩
          push_cast at this
          omega
      · simp only
        constructor
        · intro h
          omega
        · rintro ⟨j, hj, hget, hlt⟩
          simp at hj hlt
          have hjl : j < l.length := by
            rcases Nat.lt_or_ge j l.length with h | h
            · exact h
            · have : j = l.length := by omega
              subst this
              simp at hget
          rw [List.getElem?_append_left hjl] at hget
          have := ih1.2 ⟨j, hjl, hget, by omega⟩
          push_cast at this
          omega

theorem interval_snoc (l : List Bool) (b : Bool) :
    (samplingRun {} (l ++ [b])).currentSampleMs =
      if b = true ∨ ∃ j, j < l.length ∧ l[j]? = some true ∧ l.length - j ≤ 30
      then SAMPLE_PERIOD_ALERT_MS else SAMPLE_PERIOD_MS := by
  rw [samplingRun_snoc]
  have h0 := alertHold_spec l 0
  cases b with
  | true => simp [samplingStep]
  | false =>
    simp only [samplingStep, Bool.false_eq_true, if_false, false_or]
    by_cases hpos : (samplingRun {} l).alertHold > 0
    · obtain ⟨j, hj, hget, hlt⟩ := h0.1 (by simpa using hpos)
      rw [if_pos hpos, if_pos ⟨j, hj, hget, by omega⟩]
    · have hno : ¬ ∃ j, j < l.length ∧ l[j]? = some true ∧ l.length - j ≤ 30 := by
        rintro ⟨j, hj, hget, hlt⟩
        exact hpos (by simpa using h0.2 ⟨j, hj, hget, by omega⟩)
      rw [if_neg hpos, if_neg hno]

theorem intervalAt_eq (flags : List Bool) (i : Nat) (hi : i < flags.length) :
    intervalAt flags i =
      if ∃ j, j ≤ i ∧ i - j ≤ 30 ∧ flags[j]? = some true
      then SAMPLE_PERIOD_ALERT_MS else SAMPLE_PERIOD_MS := by
  unfold intervalAt
  have htake : flags.take (i + 1) = flags.take i ++ [flags[i]] := by
    rw [List.take_succ, List.getElem?_eq_getElem hi]; rfl
  rw [htake, interval_snoc]
  have hlen : (flags.take i).length = i := by simp; omega
  have hiff : (flags[i] = true ∨ ∃ j, j < (flags.take i).length ∧ (flags.take i)[j]? = some true ∧
        (flags.take i).length - j ≤ 30) ↔ ∃ j, j ≤ i ∧ i - j ≤ 30 ∧ flags[j]? = some true := by
    rw [hlen]
    constructor
    · rintro (h | ⟨j, hj, hget, hlt⟩)
      · exact ⟨i, le_refl _, by omega, by rw [List.getElem?_eq_getElem hi, h]⟩
      · refine ⟨j, by omega, hlt, ?_⟩
        rw [List.getElem?_take_of_lt hj] at hget
        exact hget
    · rintro ⟨j, hj, hlt, hget⟩
      rcases Nat.lt_or_ge j i with h | h
      · right
        refine ⟨j, h, ?_, hlt⟩
        rw [List.getElem?_take_of_lt h]
        exact hget
      · left
        have : j = i := by omega
        subst this
        rw [List.getElem?_eq_getElem hi] at hget
        simpa using hget
  by_cases h : ∃ j, j ≤ i ∧ i - j ≤ 30 ∧ flags[j]? = some true
  · rw [if_pos h, if_pos (hiff.2 h)]
  · rw [if_neg h, if_neg (fun h' => h (hiff.1 h'))]

/-- C1. Sampling controller hold window: in a run from the start-up state, the
interval chosen in cycle `i` is `SAMPLE_PERIOD_ALERT_MS` exactly when the
alert flag was raised in cycle `i` or in one of the `ALERT_HOLD_CYCLES`
cycles before it, and `SAMPLE_PERIOD_MS` otherwise.  One alert followed by
`N` quiet cycles keeps the fast interval for `ALERT_HOLD_CYCLES` further
cycles and then returns to the base interval, and every alert cycle leaves
the countdown at `ALERT_HOLD_CYCLES`. -/
theorem sampling_hold_window (flags : List Bool) (i : Nat) (hi : i < flags.length) :
    (intervalAt flags i = SAMPLE_PERIOD_ALERT_MS ↔
        ∃ j, j ≤ i ∧ ((i - j : Nat) : Int) ≤ ALERT_HOLD_CYCLES ∧ flags[j]? = some true) ∧
    (intervalAt flags i = SAMPLE_PERIOD_MS ↔
        ¬ ∃ j, j ≤ i ∧ ((i - j : Nat) : Int) ≤ ALERT_HOLD_CYCLES ∧ flags[j]? = some true) ∧
    (∀ N k : Nat, k ≤ N →
        intervalAt (true :: List.replicate N false) k =
          if (k : Int) ≤ ALERT_HOLD_CYCLES then SAMPLE_PERIOD_ALERT_MS else SAMPLE_PERIOD_MS) ∧
    (∀ pre : List Bool, (samplingRun {} (pre ++ [true])).alertHold = ALERT_HOLD_CYCLES) := by
  have key := intervalAt_eq flags i hi
  have hcast : ∀ j : Nat, (((i - j : Nat) : Int) ≤ ALERT_HOLD_CYCLES) ↔ i - j ≤ 30 := by
    intro j; simp only [ALERT_HOLD_CYCLES]; omega
  simp only [hcast]
  refine ⟨?_, ?_, ?_, ?_⟩
  · rw [key]
    by_cases h : ∃ j, j ≤ i ∧ i - j ≤ 30 ∧ flags[j]? = some true
    · rw [if_pos h]
      exact ⟨fun _ => h, fun _ => rfl⟩
    · rw [if_neg h]
      exact ⟨fun e => absurd e (by decide), fun h1 => absurd h1 h⟩
  · rw [key]
    by_cases h : ∃ j, j ≤ i ∧ i - j ≤ 30 ∧ flags[j]? = some true
    · rw [if_pos h]
      exact ⟨fun e => absurd e (by decide), fun h1 => absurd h h1⟩
    · rw [if_neg h]
      exact ⟨fun _ => h, fun _ => rfl⟩
  · intro N k hk
    rw [intervalAt_eq _ k (by simp; omega)]
    have : (∃ j, j ≤ k ∧ k - j ≤ 30 ∧ (true :: List.replicate N false)[j]? = some true) ↔
        (k : Int) ≤ ALERT_HOLD_CYCLES := by
      simp only [ALERT_HOLD_CYCLES]
      constructor
      · rintro ⟨j, hj, hlt, hget⟩
        cases j with
        | zero => simp at hlt; omega
        | succ j =>
          simp [List.getElem?_replicate] at hget
      · intro h
        exact ⟨0, by omega, by omega, by simp⟩
    by_cases h : (k : Int) ≤ ALERT_HOLD_CYCLES
    · rw [if_pos h, if_pos (this.2 h)]
    · rw [if_neg h, if_neg (fun h' => h (this.1 h'))]
  · intro pre
    rw [samplingRun_snoc]
    simp [samplingStep]

/-- Witness for C1: an alert in the second of three cycles keeps the third one fast. -/
theorem sampling_hold_window_witness :
    2 < [false, true, false].length ∧
      intervalAt [false, true, false] 2 = SAMPLE_PERIOD_ALERT_MS :=
  ⟨by decide,
    (sampling_hold_window [false, true, false] 2 (by decide)).1.2 ⟨1, by decide, by decide, rfl⟩⟩

/-! ## Forecaster and anomaly detector -/

/-- C7. Anomaly cold start: on a freshly constructed detector, and on any detector
after `reset()`, the first and the second call of `update` return false
whatever the two error values are (`nan` included). -/
theorem anomaly_cold_start (d : AnomalyDetector) (e1 e2 : Flt) :
    ((({} : AnomalyDetector).update e1).2 = false ∧
      ((({} : AnomalyDetector).update e1).1.update e2).2 = false) ∧
    ((d.reset.update e1).2 = false ∧ ((d.reset.update e1).1.update e2).2 = false) := by
  simp [AnomalyDetector.update, AnomalyDetector.reset]

theorem holt_predict_of (m : HoltForecast) (k : Int) (l t : ℚ) (hi : m.init = true)
    (hl : m.level = Flt.fin l) (ht : m.trend = Flt.fin t) :
    m.predict k = Flt.fin (l + k * t) := by
  simp [HoltForecast.predict, hi, hl, ht]

theorem holt_update_const (m : HoltForecast) (c a b : ℚ) (hi : m.init = true)
    (hl : m.level = Flt.fin c) (ht : m.trend = Flt.fin 0)
    (ha : m.alpha = Flt.fin a) (hb : m.beta = Flt.fin b) :
    (m.update (Flt.fin c)).init = true ∧ (m.update (Flt.fin c)).level = Flt.fin c ∧
    (m.update (Flt.fin c)).trend = Flt.fin 0 ∧ (m.update (Flt.fin c)).alpha = Flt.fin a ∧
    (m.update (Flt.fin c)).beta = Flt.fin b := by
  simp only [HoltForecast.update, hi, hl, ht, ha, hb, Bool.not_true, Bool.false_eq_true, if_false,
    Flt.fin_add, Flt.fin_sub, Flt.fin_mul, true_and, and_true]
  refine ⟨?_, ?_⟩
  · congr 1; ring
  · congr 1; ring

theorem holt_iterate_const (c : ℚ) (n : Nat) :
    let m := (fun m : HoltForecast => m.update (Flt.fin c))^[n + 1] {}
    m.init = true ∧ m.level = Flt.fin c ∧ m.trend = Flt.fin 0 ∧
      m.alpha = Flt.fin (1 / 2) ∧ m.beta = Flt.fin (1 / 5) := by
  induction n with
  | zero => simp [HoltForecast.update]
  | succ n ih =>
    intro m
    have hm : m = ((fun m : HoltForecast => m.update (Flt.fin c))^[n + 1] {}).update (Flt.fin c) := by
      simp only [m]
      rw [Function.iterate_succ_apply']
    obtain ⟨h1, h2, h3, h4, h5⟩ := ih
    rw [hm]
    exact holt_update_const _ c _ _ h1 h2 h3 h4 h5

/-- C9. Forecaster on a constant input: after `n ≥ 1` calls `update(c)` on a freshly
constructed `HoltForecast` the level is `c` and the trend is `0`, so
`predict(k) = c` for every `k` (in particular after the first update), and
level and trend converge to `c` and `0` as the number of updates grows. -/
theorem holt_constant_input (c : ℚ) (n : Nat) (hn : 1 ≤ n) :
    ((fun m : HoltForecast => m.update (Flt.fin c))^[n] {}).level = Flt.fin c ∧
    ((fun m : HoltForecast => m.update (Flt.fin c))^[n] {}).trend = Flt.fin 0 ∧
    (∀ k : Int, ((fun m : HoltForecast => m.update (Flt.fin c))^[n] {}).predict k = Flt.fin c) ∧
    (∀ k : Int, ((({} : HoltForecast).update (Flt.fin c)).predict k = Flt.fin c)) ∧
    (∀ ε : ℚ, 0 < ε → ∃ N : Nat, ∀ j : Nat, N ≤ j → ∃ l t : ℚ,
      ((fun m : HoltForecast => m.update (Flt.fin c))^[j] {}).level = Flt.fin l ∧
      ((fun m : HoltForecast => m.update (Flt.fin c))^[j] {}).trend = Flt.fin t ∧
      |l - c| < ε ∧ |t| < ε) := by
  have key : ∀ j : Nat, 1 ≤ j →
      ((fun m : HoltForecast => m.update (Flt.fin c))^[j] {}).init = true ∧
      ((fun m : HoltForecast => m.update (Flt.fin c))^[j] {}).level = Flt.fin c ∧
      ((fun m : HoltForecast => m.update (Flt.fin c))^[j] {}).trend = Flt.fin 0 := by
    intro j hj
    obtain ⟨i, rfl⟩ : ∃ i, j = i + 1 := ⟨j - 1, by omega⟩
    obtain ⟨h1, h2, h3, -, -⟩ := holt_iterate_const c i
    exact ⟨h1, h2, h3⟩
  have pred : ∀ j : Nat, 1 ≤ j → ∀ k : Int,
      ((fun m : HoltForecast => m.update (Flt.fin c))^[j] {}).predict k = Flt.fin c := by
    intro j hj k
    obtain ⟨h1, h2, h3⟩ := key j hj
    exact holt_predict_of _ k c 0 h1 h2 h3 ▸ by simp
  refine ⟨(key n hn).2.1, (key n hn).2.2, pred n hn, ?_, ?_⟩
  · intro k
    simpa using pred 1 (le_refl 1) k
  · intro ε hε
    refine ⟨1, fun j hj => ⟨c, 0, (key j hj).2.1, (key j hj).2.2, ?_, ?_⟩⟩
    · simpa using hε
    · simpa using hε

/-- Witness for C9: three updates with the value 420. -/
theorem holt_constant_input_witness :
    1 ≤ 3 ∧ ((fun m : HoltForecast => m.update (Flt.fin 420))^[3] {}).level = Flt.fin 420 :=
  ⟨by decide, (holt_constant_input 420 3 (by decide)).1⟩

/-- C8, counterexample: `predictClamped` does not land in `[lo, hi]` for every
model state and every pair of bounds.  A freshly constructed model returns
`nan` for the bounds 300 and 1600, and with `lo = 5 > hi = 1` a model that
has seen the single value 3 returns 5. -/
theorem predictClamped_range_counterexample :
    Flt.inClosed (({} : HoltForecast).predictClamped 360 (Flt.fin 300) (Flt.fin 1600))
        (Flt.fin 300) (Flt.fin 1600) = false ∧
    Flt.inClosed ((({} : HoltForecast).update (Flt.fin 3)).predictClamped 1 (Flt.fin 5) (Flt.fin 1))
        (Flt.fin 5) (Flt.fin 1) = false := by
  constructor
  · simp [HoltForecast.predictClamped, HoltForecast.predict, Flt.inClosed, Flt.ge]
  · simp [HoltForecast.predictClamped, HoltForecast.predict, HoltForecast.update, Flt.inClosed]
    norm_num

/-- C8, amended: whenever `predict(k)` is a number (the model is initialised) and
`lo ≤ hi`, the value of `predictClamped(k, lo, hi)` lies in the closed
interval `[lo, hi]`; an uninitialised model returns `nan` for all bounds. -/
theorem predictClamped_range (m : HoltForecast) (k : Int) (lo hi : ℚ)
    (hp : (m.predict k).isnan = false) (hle : lo ≤ hi) :
    Flt.inClosed (m.predictClamped k (Flt.fin lo) (Flt.fin hi)) (Flt.fin lo) (Flt.fin hi) = true ∧
    (∀ (m0 : HoltForecast) (k0 : Int) (a b : Flt), m0.init = false →
      m0.predictClamped k0 a b = Flt.nan) := by
  constructor
  · obtain ⟨p, hpq⟩ := Flt.isnan_eq_false hp
    simp only [HoltForecast.predictClamped, hpq, Flt.isnan_fin, Bool.false_eq_true, if_false,
      Flt.lt_fin, Flt.gt_fin, decide_eq_true_eq]
    by_cases h1 : p < lo
    · simp [h1, Flt.inClosed, hle]
    · by_cases h2 : hi < p
      · simp [h1, h2, Flt.inClosed, hle]
      · simp [h1, h2, Flt.inClosed, not_lt.1 h1, not_lt.1 h2]
  · intro m0 k0 a b h0
    simp [HoltForecast.predictClamped, HoltForecast.predict, h0]

/-- Witness for C8: the 60-minute eco2 forecast after one update with 420. -/
theorem predictClamped_range_witness :
    Flt.inClosed ((({} : HoltForecast).update (Flt.fin 420)).predictClamped 360
        (Flt.fin 300) (Flt.fin 1600)) (Flt.fin 300) (Flt.fin 1600) = true :=
  (predictClamped_range (({} : HoltForecast).update (Flt.fin 420)) 360 300 1600
    (by simp [HoltForecast.predict, HoltForecast.update]) (by norm_num)).1

theorem holt_update_count (m : HoltForecast) (x : Flt) :
    (m.update x).init = true ∧
      (m.update x).updateCount = if m.init = true then m.updateCount + 1 else 1 := by
  unfold HoltForecast.update
  cases h : m.init <;> simp

theorem anomaly_update_count (d : AnomalyDetector) (e : Flt) :
    (d.update e).1.init = true ∧
      (d.update e).1.updateCount = (if d.init = true then d.updateCount + 1 else 1) ∧
      ((d.update e).2 = true → d.init = true ∧ 3 ≤ d.updateCount + 1) := by
  unfold AnomalyDetector.update
  cases h : d.init
  · simp
  · by_cases h3 : d.updateCount + 1 < 3
    · simp [h3]
    · simp only [Bool.not_true, Bool.false_eq_true, if_false, h3, if_true]
      exact ⟨trivial, trivial, fun _ => ⟨trivial, by omega⟩⟩

/-- The anomaly stage of one channel, as `loop()` runs it: the detector is updated
only when the forecaster is stable. -/
theorem anomaly_stage_eq (stable : Bool) (d : AnomalyDetector) (e : Flt) :
    (match (if stable = true then some e else none) with
      | some e => d.update e
      | none => (d, false)) = if stable = true then d.update e else (d, false) := by
  cases stable <;> rfl

/-- One channel of the "PREDICTION + ANOMALY" block: counters after cycle `n + 1`. -/
theorem channel_step (m : HoltForecast) (d : AnomalyDetector) (x e : Flt) (n : Nat)
    (hmi : m.init = decide (0 < n)) (hmc : m.updateCount = n)
    (hdi : d.init = decide (4 < n)) (hdc : d.updateCount = ((n - 4 : Nat) : Int)) :
    (m.update x).init = decide (0 < n + 1) ∧ (m.update x).updateCount = ((n + 1 : Nat) : Int) ∧
    ((m.update x).isStable = decide (4 ≤ n)) ∧
    (if (m.update x).isStable = true then d.update e else (d, false)).1.init
        = decide (4 < n + 1) ∧
    (if (m.update x).isStable = true then d.update e else (d, false)).1.updateCount
        = (((n + 1) - 4 : Nat) : Int) ∧
    (n + 1 ≤ 6 → (if (m.update x).isStable = true then d.update e else (d, false)).2 = false) := by
  obtain ⟨h1, h2⟩ := holt_update_count m x
  have hcount : (m.update x).updateCount = ((n + 1 : Nat) : Int) := by
    rw [h2, hmi, hmc]
    by_cases hn : 0 < n
    · simp [hn]
    · have : n = 0 := by omega
      subst this
      simp
  have hstable : (m.update x).isStable = decide (4 ≤ n) := by
    unfold HoltForecast.isStable
    rw [h1, hcount]
    simp only [Bool.true_and, ge_iff_le]
    congr 1
    apply propext
    constructor <;> intro h <;> omega
  obtain ⟨g1, g2, g3⟩ := anomaly_update_count d e
  refine ⟨by simp [h1], hcount, hstable, ?_, ?_, ?_⟩
  · rw [hstable]
    by_cases h4 : 4 ≤ n
    · simp only [h4, decide_True, if_true, g1]
      simp; omega
    · simp only [h4, decide_False, Bool.false_eq_true, if_false, hdi]
      congr 1
      apply propext
      constructor <;> intro h <;> omega
  · rw [hstable]
    by_cases h4 : 4 ≤ n
    · simp only [h4, decide_True, if_true, g2, hdi, hdc]
      by_cases h5 : 4 < n
      · simp only [h5, decide_True, if_true]
        omega
      · have : n = 4 := by omega
        subst this
        simp
    · simp only [h4, decide_False, Bool.false_eq_true, if_false, hdc]
      omega
  · intro hn
    rw [hstable]
    by_cases h4 : 4 ≤ n
    · simp only [h4, decide_True, if_true]
      by_contra hne
      have htrue : (d.update e).2 = true := by simpa using hne
      obtain ⟨-, g5⟩ := g3 htrue
      rw [hdc] at g5
      omega
    · simp [h4]

theorem warmInv_init : WarmInv 0 {} := by
  simp [WarmInv]

theorem warmInv_step (n : Nat) (s : State) (r : Reading) (h : WarmInv n s) :
    WarmInv (n + 1) (loop s r).1 ∧
    (n + 1 ≤ 6 → (loop s r).2.anEco2 = false ∧ (loop s r).2.anTvoc = false) ∧
    ((loop s r).2.errEco2.isSome = decide (4 ≤ n) ∧ (loop s r).2.errTvoc.isSome = decide (4 ≤ n)) := by
  obtain ⟨⟨a1, a2⟩, ⟨b1, b2⟩, ⟨c1, c2⟩, ⟨d1, d2⟩⟩ := h
  have hE := fun x e => channel_step s.holtEco2 s.anomEco2 x e n a1 a2 c1 c2
  have hT := fun x e => channel_step s.holtTvoc s.anomTvoc x e n b1 b2 d1 d2
  simp only [WarmInv, loop, anomaly_stage_eq]
  refine ⟨⟨⟨(hE _ Flt.nan).1, (hE _ Flt.nan).2.1⟩, ⟨(hT _ Flt.nan).1, (hT _ Flt.nan).2.1⟩,
    ⟨(hE _ _).2.2.2.1, (hE _ _).2.2.2.2.1⟩, ⟨(hT _ _).2.2.2.1, (hT _ _).2.2.2.2.1⟩⟩,
    fun hn => ⟨(hE _ _).2.2.2.2.2 hn, (hT _ _).2.2.2.2.2 hn⟩, ?_, ?_⟩
  · rw [(hE _ Flt.nan).2.2.1]
    by_cases h4 : 4 ≤ n <;> simp [h4]
  · rw [(hT _ Flt.nan).2.2.1]
    by_cases h4 : 4 ≤ n <;> simp [h4]

theorem runState_snoc (s : State) (rs : List Reading) (r : Reading) :
    runState s (rs ++ [r]) = (loop (runState s rs) r).1 := by
  simp [runState, List.foldl_append]

theorem warmInv_run (rs : List Reading) : WarmInv rs.length (runState {} rs) := by
  induction rs using List.reverseRecOn with
  | nil => exact warmInv_init
  | append_singleton rs r ih =>
    rw [runState_snoc, List.length_append, List.length_singleton]
    exact (warmInv_step _ _ r ih).1

theorem warmInv_take (rs : List Reading) (n : Nat) (hn : n ≤ rs.length) :
    WarmInv n (runState {} (rs.take n)) := by
  have h := warmInv_run (rs.take n)
  rwa [List.length_take, Nat.min_eq_left hn] at h

theorem reportAt_eq_some {rs : List Reading} {n : Nat} {rep : Report}
    (h : reportAt rs n = some rep) :
    ∃ r, n < rs.length ∧ rep = (loop (runState {} (rs.take n)) r).2 := by
  unfold reportAt at h
  cases hr : rs[n]? with
  | none => rw [hr] at h; simp at h
  | some r =>
    rw [hr] at h
    simp only [Option.some.injEq] at h
    obtain ⟨hlt, -⟩ := List.getElem?_eq_some_iff.1 hr
    exact ⟨r, hlt, h.symm⟩

/-- C10. Pipeline warm-up, for every sequence of readings from the start-up state
(cycle `n + 1` is index `n`): both anomaly flags are false in each of the
first 6 cycles; after `n` cycles each forecaster has `updateCount = n`; a
detector is invoked in a cycle exactly when that cycle is the 5th or later;
and cycle 7 can raise a flag (six readings of 400 ppm followed by 1000 ppm
do). -/
theorem pipeline_warmup (rs : List Reading) :
    (∀ (n : Nat) (rep : Report), n < 6 → reportAt rs n = some rep →
      rep.anEco2 = false ∧ rep.anTvoc = false) ∧
    (∀ n : Nat, n ≤ rs.length →
      (runState {} (rs.take n)).holtEco2.updateCount = (n : Int) ∧
      (runState {} (rs.take n)).holtTvoc.updateCount = (n : Int)) ∧
    (∀ (n : Nat) (rep : Report), reportAt rs n = some rep →
      rep.errEco2.isSome = decide (4 ≤ n) ∧ rep.errTvoc.isSome = decide (4 ≤ n)) ∧
    ((reportAt [⟨none, some (400, 0)⟩, ⟨none, some (400, 0)⟩, ⟨none, some (400, 0)⟩,
        ⟨none, some (400, 0)⟩, ⟨none, some (400, 0)⟩, ⟨none, some (400, 0)⟩,
        ⟨none, some (1000, 0)⟩] 6).map Report.anEco2 = some true) := by
  refine ⟨?_, ?_, ?_, ?_⟩
  · intro n rep hn h
    obtain ⟨r, hlt, rfl⟩ := reportAt_eq_some h
    exact (warmInv_step n _ r (warmInv_take rs n (le_of_lt hlt))).2.1 (by omega)
  · intro n hn
    obtain ⟨⟨-, h1⟩, ⟨-, h2⟩, -⟩ := warmInv_take rs n hn
    exact ⟨h1, h2⟩
  · intro n rep h
    obtain ⟨r, hlt, rfl⟩ := reportAt_eq_some h
    exact (warmInv_step n _ r (warmInv_take rs n (le_of_lt hlt))).2.2
  · decide!

/-- Witness for C10: in a run whose second reading jumps from 400 to 2000 ppm the
anomaly flags of cycle 2 are false. -/
theorem pipeline_warmup_witness :
    (loop (runState {} [⟨none, some (400, 0)⟩]) ⟨none, some (2000, 0)⟩).2.anEco2 = false ∧
    (loop (runState {} [⟨none, some (400, 0)⟩]) ⟨none, some (2000, 0)⟩).2.anTvoc = false :=
  (pipeline_warmup [⟨none, some (400, 0)⟩, ⟨none, some (2000, 0)⟩]).1 1 _ (by decide) rfl

/-! ## Delta detector and failed readings -/

theorem abs_cast_ge (a b : Nat) (k : Nat) :
    (|(a : Int) - (b : Int)| ≥ (k : Int)) ↔ (|(a : ℚ) - (b : ℚ)| ≥ (k : ℚ)) := by
  have h : ((|(a : Int) - (b : Int)| : Int) : ℚ) = |(a : ℚ) - (b : ℚ)| := by
    push_cast; rfl
  rw [← h]
  constructor
  · intro hk; exact_mod_cast hk
  · intro hk; exact_mod_cast hk

theorem fltChan_eq_spec (p c : Flt) (thr : ℚ) :
    ((!p.isnan && !c.isnan) && Flt.ge (Flt.fabs (c - p)) (Flt.fin thr)) =
      chanDeltaSpec p.toSpec c.toSpec thr := by
  cases p <;> cases c <;> simp [chanDeltaSpec, Flt.toSpec, Flt.ge, Flt.fabs]

/-- When the SGP30 reading succeeded in the previous and in the current cycle,
`deltaAlert` is the documented detector's verdict (thresholds inclusive). -/
theorem deltaDetect_eq_spec (s0 : State) (prev cur : Reading) (pe pv ce cv : Nat)
    (hp : prev.sgp = some (pe, pv)) (hc : cur.sgp = some (ce, cv)) :
    (loop (loop s0 prev).1 cur).2.deltaAlert = deltaSpec (some prev) cur := by
  obtain ⟨pb, ps⟩ := prev
  obtain ⟨cb, cs⟩ := cur
  simp only at hp hc
  subst hp hc
  have hE : (decide ((pe : Int) ≥ 0 ∧ |(ce : Int) - (pe : Int)| ≥ ECO2_DELTA_PPM)) =
      chanDeltaSpec (some (pe : ℚ)) (some (ce : ℚ)) 30 := by
    simp only [chanDeltaSpec, ECO2_DELTA_PPM]
    have := abs_cast_ge ce pe 30
    simp only [Nat.cast_ofNat] at this
    simp [this]
  have hV : (decide ((pv : Int) ≥ 0 ∧ |(cv : Int) - (pv : Int)| ≥ TVOC_DELTA_PPB)) =
      chanDeltaSpec (some (pv : ℚ)) (some (cv : ℚ)) 15 := by
    simp only [chanDeltaSpec, TVOC_DELTA_PPB]
    have := abs_cast_ge cv pv 15
    simp only [Nat.cast_ofNat] at this
    simp [this]
  have hT := fun p c => fltChan_eq_spec p c (1 / 2)
  have hH := fun p c => fltChan_eq_spec p c 2
  have hP := fun p c => fltChan_eq_spec p c 1
  have hor : ∀ (c1 c2 : Prop) [Decidable c1] [Decidable c2] (b3 b4 b5 : Bool),
      (if b5 = true then true else if b4 = true then true else if b3 = true then true else
        if c2 then true else if c1 then true else false) =
      (decide c1 || decide c2 || b3 || b4 || b5) := by
    intro c1 c2 _ _ b3 b4 b5
    by_cases h1 : c1 <;> by_cases h2 : c2 <;> cases b3 <;> cases b4 <;> cases b5 <;> simp [h1, h2]
  simp only [loop, deltaDetect, TEMP_DELTA_C, HUM_DELTA_RH, PRESS_DELTA_HPA, hor, hE, hV, hT, hH, hP]
  rcases pb with _ | ⟨t, h, p⟩ <;> rcases cb with _ | ⟨t1, h1, p1⟩ <;>
    simp [deltaSpec, Reading.eco2Spec, Reading.tvocSpec, Reading.tempSpec, Reading.humSpec,
      Reading.presSpec, Flt.toSpec]

/-- C5, the code at a failing input.  Cycle 1: the SGP30 reading fails; cycle 2:
it delivers eco2 = 420, tvoc = 0; the BME680 fails in both.  No channel has
both a previous and a current value, so the documented detector gives
false, but `loop()` stored 0 for the failed reading and reports
`deltaAlert = true` in cycle 2.  On the sequence 420, 420, 420, 420, 420, 460
of successful readings the flags are false in cycles 1 to 5 and true in
cycle 6, as documented. -/
theorem delta_after_failed_reading :
    (reportAt [⟨none, none⟩, ⟨none, some (420, 0)⟩] 1).map Report.deltaAlert = some true ∧
    deltaSpec (some ⟨none, none⟩) ⟨none, some (420, 0)⟩ = false ∧
    (List.range 6).map (fun n =>
      (reportAt [⟨none, some (420, 0)⟩, ⟨none, some (420, 0)⟩, ⟨none, some (420, 0)⟩,
        ⟨none, some (420, 0)⟩, ⟨none, some (420, 0)⟩, ⟨none, some (460, 0)⟩] n).map
        Report.deltaAlert) =
      [some false, some false, some false, some false, some false, some true] := by
  refine ⟨by decide!, by decide!, by decide!⟩

/-- C6, the code at a failing input.  Cycle 1 delivers eco2 = 420, tvoc = 0; in
cycle 2 the SGP30 reading fails (the BME680 fails in both).  `loop()` uses
0 for the failed reading: the eco2 comparison raises `deltaAlert` (the
documented detector gives false) and the eco2 forecaster is updated with 0,
going from level 420, trend 0, `updateCount` 1 to level 210, trend -42,
`updateCount` 2.  In general a failed SGP30 reading updates both forecasters
with 0. -/
theorem failed_reading_fed_as_zero :
    (reportAt [⟨none, some (420, 0)⟩, ⟨none, none⟩] 1).map Report.deltaAlert = some true ∧
    deltaSpec (some ⟨none, some (420, 0)⟩) ⟨none, none⟩ = false ∧
    (runState {} [⟨none, some (420, 0)⟩]).holtEco2 =
      { level := Flt.fin 420, trend := Flt.fin 0, init := true, updateCount := 1 } ∧
    (runState {} [⟨none, some (420, 0)⟩, ⟨none, none⟩]).holtEco2 =
      { level := Flt.fin 210, trend := Flt.fin (-42), init := true, updateCount := 2 } ∧
    (∀ (s : State) (b : Option (Flt × Flt × Flt)),
      (loop s ⟨b, none⟩).1.holtEco2 = s.holtEco2.update (Flt.fin 0) ∧
      (loop s ⟨b, none⟩).1.holtTvoc = s.holtTvoc.update (Flt.fin 0)) := by
  refine ⟨by decide!, by decide!, by decide!, by decide!, fun s b => ⟨?_, ?_⟩⟩
  · simp [loop]
  · simp [loop]

/-- C3, the code at a failing input.  Five cycles with eco2 = 400, 400, 400, 400,
500 (tvoc 0).  Before cycle 5 the forecaster predicts 400 one step ahead, so
the one-step residual of the observation 500 is 100; `loop()` updates the
forecaster first (level 450, trend 10) and passes `500 - 460 = 40` to
`AnomalyDetector::update`.  In every cycle the value passed is `oneStepErr`
of the forecaster that already contains the cycle's observation. -/
theorem residual_uses_updated_forecaster :
    (reportAt [⟨none, some (400, 0)⟩, ⟨none, some (400, 0)⟩, ⟨none, some (400, 0)⟩,
        ⟨none, some (400, 0)⟩, ⟨none, some (500, 0)⟩] 4).map Report.errEco2
      = some (some (Flt.fin 40)) ∧
    Flt.ofNat 500 - (runState {} [⟨none, some (400, 0)⟩, ⟨none, some (400, 0)⟩,
        ⟨none, some (400, 0)⟩, ⟨none, some (400, 0)⟩]).holtEco2.predict 1 = Flt.fin 100 ∧
    (∀ (s : State) (b : Option (Flt × Flt × Flt)) (e v : Nat),
      (loop s ⟨b, some (e, v)⟩).2.errEco2 =
        (if (s.holtEco2.update (Flt.ofNat e)).isStable = true
          then some (oneStepErr (s.holtEco2.update (Flt.ofNat e)) (Flt.ofNat e)) else none) ∧
      (loop s ⟨b, some (e, v)⟩).2.errTvoc =
        (if (s.holtTvoc.update (Flt.ofNat v)).isStable = true
          then some (oneStepErr (s.holtTvoc.update (Flt.ofNat v)) (Flt.ofNat v)) else none)) := by
  refine ⟨by decide!, by decide!, fun s b e v => ⟨rfl, rfl⟩⟩

end IoT
